import Mathlib

/-!
Verification of the aiidalab-widgets-base live process monitoring pipeline
against its specification.

The embedding covers the data model (the external engine's process records
and its process-state enumeration), the process locator and filter wiring
cells of the repository's notebooks, and the follower/poller components.
The widget library modules themselves are not part of the source tree here;
components taken from the specification's description are marked
`Modelled from the spec:` in their doc comments.
-/

namespace AWB

/-- Process state enumeration of the external workflow engine
(plumpy's ProcessState, an external collaborator of this repository). -/
inductive ProcessState where
  | created
  | running
  | waiting
  | finished
  | excepted
  | killed
deriving DecidableEq, Repr

/-- String value of a process state, as exposed by the engine
(state.value in the process_list notebook). -/
def ProcessState.value : ProcessState → String
  | .created => "created"
  | .running => "running"
  | .waiting => "waiting"
  | .finished => "finished"
  | .excepted => "excepted"
  | .killed => "killed"

/-- Every member of the engine's process-state enumeration, in declaration
order (iteration order of `for state in ProcessState`). -/
def ProcessState.all : List ProcessState :=
  [.created, .running, .waiting, .finished, .excepted, .killed]

/-- Engine-owned process record: identifier (pk), state enum, call
hierarchy (pks of called subprocesses), inputs/outputs (port name to node
pk), and textual report log.  Owned and mutated by the external engine. -/
structure ProcessNode where
  pk : Nat
  state : ProcessState
  callees : List Nat
  inputs : List (String × Nat)
  outputs : List (String × Nat)
  report : List String
deriving DecidableEq, Repr

/-- Lookup of a node by pk in the engine's store; aiida's load_node raises
NotExistent for an unknown pk, embedded here as `none`. -/
def loadNode (engine : List ProcessNode) (pk : Nat) : Option ProcessNode :=
  engine.find? (fun n => n.pk == pk)

/-- Lookup in the parsed query-string dictionary produced by
urllib.parse.parse_qs (a key maps to the list of its values). -/
def qsLookup (urlDict : List (String × List String)) (k : String) :
    Option (List String) :=
  (urlDict.find? (fun p => p.1 == k)).map Prod.snd

/-- Error surfaced by the locator cell: load_node raises NotExistent for an
unknown pk, and int() raises ValueError on a non-numeric id. -/
inductive LocateError where
  | notExistent
  | valueError
deriving DecidableEq, Repr

/-- Decimal accumulator for pyIntNat: consumes digit characters and fails
on any other character. -/
def decNat? : List Char → Nat → Option Nat
  | [], acc => some acc
  | c :: cs, acc =>
    if c.isDigit then decNat? cs (acc * 10 + (c.toNat - 48)) else none

/-- Embeds int() applied to the id value of the query string: a non-empty
string of decimal digits denotes its number; anything else raises
ValueError, embedded as none. -/
def pyIntNat (s : String) : Option Nat :=
  match s.data with
  | [] => none
  | cs => decNat? cs 0

/-- Embeds the locator cell of the process notebook (src/unnamed/part_008,
also part_007): if "id" is in url_dict then the process is
load_node(int(url_dict["id"][0])), otherwise the process is None.
parse_qs never produces an empty value list, so the head default is inert. -/
def locateProcess (engine : List ProcessNode)
    (urlDict : List (String × List String)) :
    Except LocateError (Option ProcessNode) :=
  match qsLookup urlDict "id" with
  | none => .ok none
  | some vals =>
    match pyIntNat (vals.headD "") with
    | none => .error .valueError
    | some pk =>
      match loadNode engine pk with
      | none => .error .notExistent
      | some n => .ok (some n)

/-- Modelled from the spec: ProcessInputsWidget (its module is absent from
the source tree; the notebook caller constructs it from the located
process, possibly None).  A stateless projection of the record's inputs;
with no process it renders an empty selection. -/
structure ProcessInputsWidget where
  process : Option ProcessNode
  displayed : List (String × Nat)
deriving DecidableEq, Repr

/-- Constructor of the inputs widget: total on an optional process. -/
def mkProcessInputsWidget (p : Option ProcessNode) : ProcessInputsWidget :=
  { process := p, displayed := (p.map ProcessNode.inputs).getD [] }

/-- Modelled from the spec: ProcessOutputsWidget, the outputs counterpart
of the inputs widget. -/
structure ProcessOutputsWidget where
  process : Option ProcessNode
  displayed : List (String × Nat)
deriving DecidableEq, Repr

/-- Constructor of the outputs widget: total on an optional process. -/
def mkProcessOutputsWidget (p : Option ProcessNode) : ProcessOutputsWidget :=
  { process := p, displayed := (p.map ProcessNode.outputs).getD [] }

/-- Filter traits of the ProcessListWidget targeted by the dlinks of the
process_list notebook. -/
structure ProcessListFilters where
  pastDays : Int
  processStates : List String
  incomingNode : String
  outgoingNode : String
  processLabel : String
  descriptionContains : String
deriving DecidableEq, Repr

/-- View state of the wiring cell of notebooks/process_list.ipynb: the
numeric past-days input, its disabled flag, the All days checkbox, the
state multi-select, and the linked process-list filters. -/
structure ProcessListUI where
  pastDaysValue : Int
  pastDaysDisabled : Bool
  allDays : Bool
  stateValue : List String
  procList : ProcessListFilters
deriving DecidableEq, Repr

/-- Embeds available_states of the process_list notebook:
[state.value for state in ProcessState]. -/
def availableStates : List String :=
  ProcessState.all.map ProcessState.value

/-- Embeds the wiring cell of notebooks/process_list.ipynb at creation
time: past_days_widget has value 7, all_days_checkbox is false, the state
multi-select has value available_states, the text filters are empty, and
each dlink copies its source value to its target when the link is made. -/
def processListWiring : ProcessListUI :=
  { pastDaysValue := 7
    pastDaysDisabled := false
    allDays := false
    stateValue := availableStates
    procList :=
      { pastDays := 7
        processStates := availableStates
        incomingNode := ""
        outgoingNode := ""
        processLabel := ""
        descriptionContains := "" } }

/-- Embeds the two dlinks fired when the All days checkbox value changes
to b: past_days_widget.disabled becomes b, and process_list.past_days
becomes -1 if b else past_days_widget.value. -/
def applyAllDays (ui : ProcessListUI) (b : Bool) : ProcessListUI :=
  { ui with
    allDays := b
    pastDaysDisabled := b
    procList :=
      { ui.procList with
        pastDays := if b then -1 else ui.pastDaysValue } }

/-- Embeds the dlink fired when the numeric past-days input changes to v:
process_list.past_days follows it. -/
def applyPastDays (ui : ProcessListUI) (v : Int) : ProcessListUI :=
  { ui with
    pastDaysValue := v
    procList := { ui.procList with pastDays := v } }

/-- Acceptance of a process by the state filter of the process list: its
state's string value is among the selected states. -/
def stateFilterAccepts (f : ProcessListFilters) (n : ProcessNode) : Prop :=
  n.state.value ∈ f.processStates

/-- Modelled from the spec: the follower renderers passed in the process
notebook (ProgressBarWidget, ProcessReportWidget, ProcessCallStackWidget,
RunningCalcJobOutputWidget; their modules are absent from the source
tree).  Each is a stateless projection of the process state. -/
inductive Renderer where
  | progressBar
  | processReport
  | processCallStack
  | runningCalcJobOutput
deriving DecidableEq, Repr

/-- Projection computed by each renderer from one process record: the
progress bar shows the state, the report widget the report log, the call
stack the call hierarchy, and the calc-job output widget the outputs. -/
def Renderer.render : Renderer → ProcessNode → String
  | .progressBar, n => n.state.value
  | .processReport, n => String.intercalate "\n" n.report
  | .processCallStack, n =>
      String.intercalate "\n" ((n.pk :: n.callees).map toString)
  | .runningCalcJobOutput, n =>
      String.intercalate "," (n.outputs.map Prod.fst)

/-- Modelled from the spec: ProcessFollowerWidget (its module is absent
from the source tree).  Transient view state only: the located process
handle, the followers list, the last-rendered snapshot of each follower,
the notebook output cell, the caller-supplied polling interval, and the
timer flag. -/
structure FollowerWidget where
  process : Option ProcessNode
  followers : List Renderer
  views : List String
  output : List String
  updateInterval : Nat
  timerOn : Bool
deriving DecidableEq, Repr

/-- Constructor of the follower widget, as called in the process notebook:
total on an optional process, with the followers list and update interval
supplied by the caller; the timer starts off until follow is called. -/
def mkFollowerWidget (p : Option ProcessNode) (fs : List Renderer)
    (ivl : Nat) : FollowerWidget :=
  { process := p
    followers := fs
    views := fs.map (fun _ => "")
    output := []
    updateInterval := ivl
    timerOn := false }

/-- Modelled from the spec: the Aggregator step of one poll: the freshly
fetched state is fanned out to every follower, each redrawn as its
stateless projection of that state (re-fetch-and-redraw, last fetch
wins). -/
def FollowerWidget.update (w : FollowerWidget) (fetched : ProcessNode) :
    FollowerWidget :=
  { w with
    process := some fetched
    views := w.followers.map (fun r => r.render fetched) }

/-- Modelled from the spec: a following run: step n applies the Aggregator
to the state fetched by the Poller at tick n.  The engine mutates the
record between ticks, so the fetched states form a sequence. -/
def followRun (w : FollowerWidget) (fetches : Nat → ProcessNode) :
    Nat → FollowerWidget
  | 0 => w
  | n + 1 => (followRun w fetches n).update (fetches n)

/-- Modelled from the spec: surfacing a message in the widget's notebook
output cell (ordinary UI display, touching nothing else). -/
def FollowerWidget.displayInOutput (w : FollowerWidget) (msg : String) :
    FollowerWidget :=
  { w with output := w.output ++ [msg] }

/-- Modelled from the spec: one poll whose engine fetch may raise: on
success the Aggregator redraws; on an engine-side exception the exception
text is surfaced in the notebook output cell and nothing else happens (no
recovery, no retry). -/
def FollowerWidget.updateE (w : FollowerWidget) :
    Except String ProcessNode → FollowerWidget
  | .ok n => w.update n
  | .error msg => w.displayInOutput msg

/-- Modelled from the spec: a following run against a fallible engine:
step n consumes exactly the fetch result of tick n, whether or not earlier
ticks raised. -/
def followRunE (w : FollowerWidget)
    (fetches : Nat → Except String ProcessNode) : Nat → FollowerWidget
  | 0 => w
  | n + 1 => (followRunE w fetches n).updateE (fetches n)

/-- Modelled from the spec: the operations of the monitoring widgets as
state transformers over the pair (engine store, widget): construction,
notebook display, one poll refresh, and stopping the timer. -/
inductive WidgetOp where
  | construct (p : Option ProcessNode) (fs : List Renderer) (ivl : Nat)
  | displayOp
  | poll
  | stopTimer
deriving DecidableEq, Repr

/-- Interpretation of one widget operation: a poll re-reads the followed
record from the engine store and redraws (surfacing NotExistent in the
output cell when the record is gone); no branch writes the store. -/
def runOp (e : List ProcessNode) (w : FollowerWidget) :
    WidgetOp → List ProcessNode × FollowerWidget
  | .construct p fs ivl => (e, mkFollowerWidget p fs ivl)
  | .displayOp => (e, w)
  | .poll =>
    match w.process with
    | none => (e, w)
    | some p =>
      match loadNode e p.pk with
      | some n => (e, w.update n)
      | none => (e, w.displayInOutput "NotExistent")
  | .stopTimer => (e, { w with timerOn := false })

/-- Events of the notebook front-end's cooperative loop for one following
session: follow starts the timer, a timer tick polls, stopTimer stops. -/
inductive LoopEvent where
  | follow
  | tick
  | stopTimer
deriving DecidableEq, Repr

/-- Modelled from the spec: processing of one loop event.  A tick
re-fetches and redraws only while the timer runs; stopTimer is the whole
cancellation protocol. -/
def loopStep (e : List ProcessNode) (w : FollowerWidget) :
    LoopEvent → FollowerWidget
  | .follow => { w with timerOn := true }
  | .tick => if w.timerOn then (runOp e w .poll).2 else w
  | .stopTimer => { w with timerOn := false }

/-- Modelled from the spec: the single cooperative event loop: the events
of a session are processed one at a time, in order, by a sequential fold;
there are no parallel workers and no locks in the model. -/
def runLoop (e : List ProcessNode) (w : FollowerWidget)
    (evs : List LoopEvent) : FollowerWidget :=
  evs.foldl (loopStep e) w

/-- Modelled from the spec: the Poller's schedule: fixed-interval
re-fetch-and-redraw; tick n fires at start + n * interval. -/
def pollTime (start interval n : Nat) : Nat :=
  start + n * interval

/-- Embeds update_interval=2 passed to ProcessFollowerWidget in the
process notebook (src/unnamed/part_008). -/
def followerUpdateInterval : Nat := 2

/-- Embeds start_autoupdate(update_interval=30) from
notebooks/process_list.ipynb. -/
def processListUpdateInterval : Nat := 30

/-- Stored data object of the engine's object store, as seen by the
viewers: a pk, the node_type string that selects a viewer, and its
attributes. -/
structure DataNode where
  pk : Nat
  nodeType : String
  attrs : List (String × String)
deriving DecidableEq, Repr

/-- Registry filled by register_viewer_widget, mapping a node_type string
to a viewer constructor (a pure rendering of the node). -/
abbrev ViewerRegistry := List (String × (DataNode → String))

/-- Result of the viewer function: a viewer widget for notebook display,
or, when no viewer is registered for the type, the object itself. -/
inductive ViewerResult where
  | viewerWidget (rendered : String)
  | plainNode (node : DataNode)

/-- Modelled from the spec: the viewer function (viewers.py is absent from
the source tree; the in-repo docs state that it returns a viewer for the
object, or the object itself when no viewer is available; downloadable
only adds a download button to the display). -/
def viewer (reg : ViewerRegistry) (node : DataNode)
    (downloadable : Bool) : ViewerResult :=
  match reg.find? (fun p => p.1 == node.nodeType) with
  | some p => .viewerWidget (p.2 node)
  | none => .plainNode node

/-- Modelled from the spec: constructing and displaying a viewer as an
operation on the object store: the stored object is looked up by pk and
projected; the store is returned with it. -/
def displayViewer (store : List DataNode) (reg : ViewerRegistry)
    (pk : Nat) (downloadable : Bool) :
    List DataNode × Option ViewerResult :=
  match store.find? (fun n => n.pk == pk) with
  | some node => (store, some (viewer reg node downloadable))
  | none => (store, none)

/-- Composition of the pipeline stages: the Process Locator resolves the
URL's identifier to a process handle, the handle seeds the follower
widget, and the Poller/Aggregator loop runs n polls. -/
def monitorPipeline (engine : List ProcessNode)
    (urlDict : List (String × List String)) (fs : List Renderer)
    (ivl : Nat) (f : Nat → ProcessNode) (n : Nat) :
    Except LocateError FollowerWidget :=
  (locateProcess engine urlDict).map
    (fun p => followRun (mkFollowerWidget p fs ivl) f n)

/-- Concrete process record used to evaluate the definitions. -/
def sampleNode : ProcessNode :=
  { pk := 7
    state := .running
    callees := [8, 9]
    inputs := [("x", 1)]
    outputs := [("result", 2)]
    report := ["step one", "step two"] }

/-- The same record one poll later, with the engine having moved it on. -/
def sampleNodeB : ProcessNode :=
  { sampleNode with state := .waiting, report := ["step one"] }

/-- Concrete engine store holding the sample record. -/
def sampleEngine : List ProcessNode := [sampleNode]

/-- Query dictionary of a notebook URL carrying id=7. -/
def sampleUrlDict : List (String × List String) := [("id", ["7"])]

/-- Follower widget as built in the process notebook, for the sample. -/
def sampleFollower : FollowerWidget :=
  mkFollowerWidget (some sampleNode)
    [Renderer.progressBar, Renderer.processReport] 2

/-- Fetch sequence that changes after the first poll. -/
def sampleFetchA : Nat → ProcessNode :=
  fun k => if k = 0 then sampleNodeB else sampleNode

/-- Constant fetch sequence. -/
def sampleFetchB : Nat → ProcessNode :=
  fun _ => sampleNode

/-- Fetch sequence whose every tick raises an engine-side exception. -/
def sampleFetchErr : Nat → Except String ProcessNode :=
  fun _ => .error "node not found"

/-- Sample follower with its timer started by follow. -/
def sampleRunningWidget : FollowerWidget :=
  { sampleFollower with timerOn := true }

/-- Closed form of a following run after at least one poll: everything is
determined by the constructor-supplied fields and the last fetch alone. -/
theorem followRun_succ (w : FollowerWidget) (f : Nat → ProcessNode)
    (n : Nat) :
    followRun w f (n + 1) =
      { process := some (f n)
        followers := w.followers
        views := w.followers.map (fun r => r.render (f n))
        output := w.output
        updateInterval := w.updateInterval
        timerOn := w.timerOn } := by
  induction n with
  | zero => rfl
  | succ k ih =>
      show (followRun w f (k + 1)).update (f (k + 1)) = _
      rw [ih]
      rfl

/-- One poll never touches the timer flag. -/
theorem runOp_poll_timer (e : List ProcessNode) (w : FollowerWidget) :
    ((runOp e w .poll).2).timerOn = w.timerOn := by
  cases hp : w.process with
  | none => simp [runOp, hp]
  | some p =>
      cases hl : loadNode e p.pk <;>
        simp [runOp, hp, hl, FollowerWidget.update,
          FollowerWidget.displayInOutput]

/-- Timer stays on across a trace with no stopTimer event. -/
theorem runLoop_timer_stays (e : List ProcessNode) :
    ∀ (evs : List LoopEvent) (w : FollowerWidget),
      LoopEvent.stopTimer ∉ evs → w.timerOn = true →
      (runLoop e w evs).timerOn = true := by
  intro evs
  induction evs with
  | nil => intro w _ hw; exact hw
  | cons ev rest ih =>
      intro w h hw
      have hev : ev ≠ LoopEvent.stopTimer := by
        intro hc
        exact h (hc ▸ List.mem_cons_self _ _)
      have hrest : LoopEvent.stopTimer ∉ rest := by
        intro hc
        exact h (List.mem_cons_of_mem _ hc)
      have hstep : (loopStep e w ev).timerOn = true := by
        cases ev with
        | follow => rfl
        | tick => simp [loopStep, hw, runOp_poll_timer]
        | stopTimer => exact absurd rfl hev
      show (runLoop e (loopStep e w ev) rest).timerOn = true
      exact ih (loopStep e w ev) hrest hstep

/-- C1: the monitoring pipeline composes the Process Locator, the Poller,
the stateless Tree/Report renderers and the Aggregator: when the locator
resolves the identifier to a handle, the pipeline is the located handle
seeding the follower, and after every poll every coupled follower widget's
view is its stateless projection of the one state fetched by that poll, so
all followers show the same process state even mid-run. -/
theorem monitor_pipeline_fans_out_latest_state
    (engine : List ProcessNode) (urlDict : List (String × List String))
    (op : Option ProcessNode) (fs : List Renderer) (ivl : Nat)
    (f : Nat → ProcessNode) (n : Nat)
    (h : locateProcess engine urlDict = .ok op) :
    monitorPipeline engine urlDict fs ivl f (n + 1)
      = .ok (followRun (mkFollowerWidget op fs ivl) f (n + 1)) ∧
    (followRun (mkFollowerWidget op fs ivl) f (n + 1)).views
      = fs.map (fun r => r.render (f n)) ∧
    (followRun (mkFollowerWidget op fs ivl) f (n + 1)).process
      = some (f n) := by
  refine ⟨?_, ?_, ?_⟩
  · simp [monitorPipeline, h, Except.map]
  · rw [followRun_succ]
    rfl
  · rw [followRun_succ]

/-- Witness for C1 at the sample engine, URL and follower list. -/
theorem monitor_pipeline_fans_out_latest_state_witness :
    monitorPipeline sampleEngine sampleUrlDict
        [Renderer.progressBar, Renderer.processReport] 2 sampleFetchB 1
      = .ok (followRun (mkFollowerWidget (some sampleNode)
          [Renderer.progressBar, Renderer.processReport] 2) sampleFetchB 1) ∧
    (followRun (mkFollowerWidget (some sampleNode)
        [Renderer.progressBar, Renderer.processReport] 2) sampleFetchB 1).views
      = [Renderer.progressBar, Renderer.processReport].map
          (fun r => r.render (sampleFetchB 0)) ∧
    (followRun (mkFollowerWidget (some sampleNode)
        [Renderer.progressBar, Renderer.processReport] 2) sampleFetchB 1).process
      = some (sampleFetchB 0) :=
  monitor_pipeline_fans_out_latest_state sampleEngine sampleUrlDict
    (some sampleNode) [Renderer.progressBar, Renderer.processReport] 2
    sampleFetchB 0 rfl

/-- C2: last fetch wins: after any poll the entire widget state equals
what it would be had only the last fetch happened (no stale snapshot
survives a later successful fetch, and the widget holds nothing beyond the
last-rendered snapshot and its constructor-supplied parameters), and the
rendered views are exactly the projections of the most recent fetch. -/
theorem last_fetch_wins (w : FollowerWidget) (f g : Nat → ProcessNode)
    (n : Nat) (h : f n = g n) :
    followRun w f (n + 1) = followRun w g (n + 1) ∧
    (followRun w f (n + 1)).views
      = w.followers.map (fun r => r.render (f n)) := by
  constructor
  · rw [followRun_succ, followRun_succ, h]
  · rw [followRun_succ]

/-- Witness for C2: two fetch histories that differ at tick 0 but agree at
tick 1 leave the widget in the same state after poll 2. -/
theorem last_fetch_wins_witness :
    followRun sampleFollower sampleFetchA 2
      = followRun sampleFollower sampleFetchB 2 ∧
    (followRun sampleFollower sampleFetchA 2).views
      = sampleFollower.followers.map (fun r => r.render (sampleFetchA 1)) :=
  last_fetch_wins sampleFollower sampleFetchA sampleFetchB 1 rfl

/-- C3: polling is fixed-interval: consecutive poll times differ by
exactly the caller-supplied constant interval (never more: no backoff),
each tick performs exactly one fetch-and-redraw (none skipped for
deduplication), and the caller-supplied intervals in the notebooks are 2
for the process follower and 30 for the process list. -/
theorem polling_fixed_interval (start interval n : Nat)
    (w : FollowerWidget) (f : Nat → ProcessNode) :
    pollTime start interval (n + 1)
      = pollTime start interval n + interval ∧
    pollTime start interval (n + 1) - pollTime start interval n
      = interval ∧
    followRun w f (n + 1) = (followRun w f n).update (f n) ∧
    followerUpdateInterval = 2 ∧
    processListUpdateInterval = 30 := by
  refine ⟨?_, ?_, rfl, rfl, rfl⟩
  · simp [pollTime, Nat.succ_mul]
    omega
  · simp [pollTime, Nat.succ_mul]
    omega

/-- C4: frame effect: no monitoring-widget operation (construction,
display, a poll refresh, stopping) writes the engine-owned process
records: the engine store component is returned unchanged by every
operation. -/
theorem widget_ops_never_write_engine (e : List ProcessNode)
    (w : FollowerWidget) (op : WidgetOp) :
    (runOp e w op).1 = e := by
  cases op with
  | construct p fs ivl => rfl
  | displayOp => rfl
  | poll =>
      cases hp : w.process with
      | none => simp [runOp, hp]
      | some p => cases hl : loadNode e p.pk <;> simp [runOp, hp, hl]
  | stopTimer => rfl

/-- C5: the session runs on one cooperative loop (events are folded one at
a time, and traces compose sequentially); while following, the only event
that cancels the session is stopping the timer: any trace free of
stopTimer leaves the timer running, and no other single event can turn it
off. -/
theorem cancellation_only_by_stop_timer (e : List ProcessNode)
    (w : FollowerWidget) (evs : List LoopEvent)
    (h : LoopEvent.stopTimer ∉ evs) (hw : w.timerOn = true) :
    (runLoop e w evs).timerOn = true ∧
    (∀ ev, (loopStep e w ev).timerOn = false
        → ev = LoopEvent.stopTimer) ∧
    (∀ evs₂, runLoop e w (evs ++ evs₂)
        = runLoop e (runLoop e w evs) evs₂) := by
  refine ⟨runLoop_timer_stays e evs w h hw, ?_, ?_⟩
  · intro ev hev
    cases ev with
    | follow => simp [loopStep] at hev
    | tick =>
        have ht : (loopStep e w LoopEvent.tick).timerOn = true := by
          simp [loopStep, hw, runOp_poll_timer]
        rw [ht] at hev
        exact absurd hev (by decide)
    | stopTimer => rfl
  · intro evs₂
    simp [runLoop, List.foldl_append]

/-- Witness for C5: two ticks without a stopTimer leave the sample session
running. -/
theorem cancellation_only_by_stop_timer_witness :
    (runLoop sampleEngine sampleRunningWidget
        [LoopEvent.tick, LoopEvent.tick]).timerOn = true :=
  (cancellation_only_by_stop_timer sampleEngine sampleRunningWidget
    [LoopEvent.tick, LoopEvent.tick] (by decide) rfl).1

/-- C6: an engine-side exception during a poll is surfaced in the notebook
output cell and nothing more: the step is exactly the ordinary UI display
operation, the views and process snapshot are unchanged, the exception
text is appended to the output, and no recovery or retry happens. -/
theorem engine_error_display_only (w : FollowerWidget) (msg : String)
    (f : Nat → Except String ProcessNode) (n : Nat)
    (h : f n = .error msg) :
    followRunE w f (n + 1) = (followRunE w f n).displayInOutput msg ∧
    (followRunE w f (n + 1)).views = (followRunE w f n).views ∧
    (followRunE w f (n + 1)).process = (followRunE w f n).process ∧
    (followRunE w f (n + 1)).output
      = (followRunE w f n).output ++ [msg] := by
  have h1 : followRunE w f (n + 1)
      = (followRunE w f n).displayInOutput msg := by
    show (followRunE w f n).updateE (f n) = _
    rw [h]
    rfl
  refine ⟨h1, ?_, ?_, ?_⟩
  · rw [h1]
    rfl
  · rw [h1]
    rfl
  · rw [h1]
    rfl

/-- Witness for C6: a failing fetch at tick 0 only appends the message to
the sample follower's output cell. -/
theorem engine_error_display_only_witness :
    followRunE sampleFollower sampleFetchErr 1
      = (followRunE sampleFollower sampleFetchErr 0).displayInOutput
          "node not found" ∧
    (followRunE sampleFollower sampleFetchErr 1).views
      = (followRunE sampleFollower sampleFetchErr 0).views ∧
    (followRunE sampleFollower sampleFetchErr 1).process
      = (followRunE sampleFollower sampleFetchErr 0).process ∧
    (followRunE sampleFollower sampleFetchErr 1).output
      = (followRunE sampleFollower sampleFetchErr 0).output
          ++ ["node not found"] :=
  engine_error_display_only sampleFollower "node not found"
    sampleFetchErr 0 rfl

/-- C7: the viewer renders a read-only projection of the stored object:
constructing and displaying it leaves the object store unchanged, and the
display is purely the viewer projection of the looked-up object. -/
theorem viewer_read_only_projection (store : List DataNode)
    (reg : ViewerRegistry) (pk : Nat) (d : Bool) :
    (displayViewer store reg pk d).1 = store ∧
    (displayViewer store reg pk d).2
      = (store.find? (fun n => n.pk == pk)).map
          (fun nd => viewer reg nd d) := by
  cases hf : store.find? (fun n => n.pk == pk) <;>
    simp [displayViewer, hf]

/-- C8: locator edge cases: with no id parameter in the query string the
located process is None and the process widgets are still constructed
(with empty projections); with an id parameter whose value parses and
names an existing node, the located process is that node. -/
theorem locator_id_edge_cases (engine : List ProcessNode)
    (urlDict : List (String × List String)) :
    (qsLookup urlDict "id" = none →
      locateProcess engine urlDict = .ok none ∧
      mkProcessInputsWidget none = { process := none, displayed := [] } ∧
      mkProcessOutputsWidget none = { process := none, displayed := [] } ∧
      ∀ fs ivl, (mkFollowerWidget none fs ivl).process = none ∧
        (mkFollowerWidget none fs ivl).views = fs.map (fun _ => "")) ∧
    (∀ s pk n, qsLookup urlDict "id" = some [s] → pyIntNat s = some pk →
      loadNode engine pk = some n →
      locateProcess engine urlDict = .ok (some n)) := by
  constructor
  · intro h
    refine ⟨?_, rfl, rfl, fun fs ivl => ⟨rfl, rfl⟩⟩
    simp [locateProcess, h]
  · intro s pk n h1 h2 h3
    simp [locateProcess, h1, List.headD, h2, h3]

/-- Witness for C8 at a query without an id and one with id=7. -/
theorem locator_id_edge_cases_witness :
    locateProcess sampleEngine [] = .ok none ∧
    locateProcess sampleEngine sampleUrlDict = .ok (some sampleNode) :=
  ⟨((locator_id_edge_cases sampleEngine []).1 rfl).1,
   (locator_id_edge_cases sampleEngine sampleUrlDict).2 "7" 7 sampleNode
     rfl (by decide) (by decide)⟩

/-- C9: toggling the All days checkbox on sets the process list's
past_days filter to the sentinel -1 and disables the numeric past-days
input; toggling it off sets past_days to the numeric input's current value
and re-enables the input. -/
theorem all_days_checkbox_toggle (ui : ProcessListUI) :
    (applyAllDays ui true).procList.pastDays = -1 ∧
    (applyAllDays ui true).pastDaysDisabled = true ∧
    (applyAllDays ui false).procList.pastDays = ui.pastDaysValue ∧
    (applyAllDays ui false).pastDaysDisabled = false :=
  ⟨rfl, rfl, rfl, rfl⟩

/-- C10: the process-state filter starts as the list of every value of the
engine's ProcessState enumeration, both in the multi-select and in the
linked filter, so on first render no process is excluded by its state. -/
theorem process_state_filter_starts_with_all_states :
    processListWiring.stateValue = availableStates ∧
    processListWiring.procList.processStates
      = ProcessState.all.map ProcessState.value ∧
    ∀ n : ProcessNode,
      stateFilterAccepts processListWiring.procList n := by
  refine ⟨rfl, rfl, ?_⟩
  intro n
  show n.state.value ∈ availableStates
  cases n.state <;> decide

end AWB
